import Mathlib

/-
Verification of the recyleto pharmacy point-of-sale backend: a shallow
embedding of the Cart aggregate (src/models/Cart.js), the Transaction
aggregate (src/models/Transaction.js) and the checkout orchestrator
(the checkout controller concatenated into src/routes/sales.js), with
theorems checking the stated financial invariants, the refund and
auto-status rules, the delivery state machine and the checkout error
paths.  JS numbers are modelled as rationals, dates as integer
millisecond timestamps, Mongo object ids as naturals, and the mongoose
pre-save hooks as explicit functions applied by every save.
-/

namespace Recyleto

/-- Transaction status enum of transactionSchema.status. -/
inductive TStatus
  | draft | pending | completed | cancelled | refunded | partiallyRefunded | onHold
deriving DecidableEq

/-- Payment status enum of transactionSchema.payment.status. -/
inductive PStatus
  | pending | completed | failed | refunded | partiallyRefunded | authorized
deriving DecidableEq

/-- Delivery status values: the seven enum values of
transactionSchema.deliveryStatus plus the string not_applicable that the
checkout controller assigns for non-delivery orders. -/
inductive DStatus
  | pending | confirmed | preparing | outForDelivery | delivered | cancelled | failed
  | notApplicable
deriving DecidableEq, Fintype

/-- transactionSchema.deliveryOption enum. -/
inductive DeliveryOption
  | pickup | delivery | shipping
deriving DecidableEq

/-- transactionSchema.transactionType enum (return_ models 'return'). -/
inductive TransactionType
  | sale | purchase | return_ | adjustment | transfer
deriving DecidableEq

/-- Cart status enum of cartSchema.status. -/
inductive CStatus
  | active | completed | abandoned | cancelled
deriving DecidableEq

/-- cartSchema.discount.type enum. -/
inductive DiscountType
  | fixed | percentage
deriving DecidableEq

/-- cartSchema.discount subdocument. -/
structure Discount where
  amount : ℚ
  dtype : DiscountType
  reason : String
deriving DecidableEq

/-- cartItemSchema: one line of a cart.  itemId models the subdocument _id
used by removeItem / updateItemQuantity. -/
structure CartItem where
  itemId : ℕ
  medicineId : ℕ
  quantity : ℤ
  unitPrice : ℚ
  totalPrice : ℚ
deriving DecidableEq

/-- cartSchema: the mutable pre-transaction basket. -/
structure Cart where
  items : List CartItem
  totalAmount : ℚ
  totalItems : ℕ
  totalQuantity : ℤ
  discount : Discount
  taxAmount : ℚ
  finalAmount : ℚ
  status : CStatus
  lastActivity : ℤ
deriving DecidableEq

/-- Sum of items.totalPrice (the reduce in the cart pre-save hook). -/
def cartItemsTotal : List CartItem → ℚ
  | [] => 0
  | i :: r => i.totalPrice + cartItemsTotal r

/-- Sum of items.quantity (the reduce in the cart pre-save hook). -/
def cartItemsQuantity : List CartItem → ℤ
  | [] => 0
  | i :: r => i.quantity + cartItemsQuantity r

/-- The discount value the cart pre-save hook computes: discount.amount for a
fixed discount, totalAmount * discount.amount / 100 for a percentage one. -/
def discountValue (totalAmount : ℚ) (d : Discount) : ℚ :=
  if d.dtype = DiscountType.percentage then totalAmount * d.amount / 100 else d.amount

/-- cartSchema.pre('save'): recompute totalAmount, totalItems, totalQuantity,
lastActivity and finalAmount from the items before every persisted write. -/
def cartPreSave (c : Cart) (now : ℤ) : Cart :=
  let totalAmount := cartItemsTotal c.items
  { c with
    totalAmount := totalAmount
    totalItems := c.items.length
    totalQuantity := cartItemsQuantity c.items
    lastActivity := now
    finalAmount := totalAmount - discountValue totalAmount c.discount + c.taxAmount }

/-- The itemData argument of Cart.addItem. -/
structure AddItemData where
  itemId : ℕ
  medicineId : ℕ
  quantity : ℤ
  unitPrice : ℚ
deriving DecidableEq

/-- The item-list update of Cart.addItem: the first line with the same
medicineId gets its quantity incremented and its totalPrice recomputed,
otherwise a new line with computed totalPrice is appended. -/
def addItemToList : List CartItem → AddItemData → List CartItem
  | [], d => [⟨d.itemId, d.medicineId, d.quantity, d.unitPrice, d.quantity * d.unitPrice⟩]
  | i :: r, d =>
    if i.medicineId = d.medicineId then
      { i with
        quantity := i.quantity + d.quantity
        totalPrice := (i.quantity + d.quantity) * i.unitPrice } :: r
    else i :: addItemToList r d

/-- Cart.addItem followed by the save (pre-save hook). -/
def Cart.addItem (c : Cart) (d : AddItemData) (now : ℤ) : Cart :=
  cartPreSave { c with items := addItemToList c.items d } now

/-- Cart.removeItem: drop the line whose _id matches, then save. -/
def Cart.removeItem (c : Cart) (itemId : ℕ) (now : ℤ) : Cart :=
  cartPreSave { c with items := c.items.filter (fun i => ¬ i.itemId = itemId) } now

/-- The item-list update of Cart.updateItemQuantity (items.id(itemId) found). -/
def setQuantityInList : List CartItem → ℕ → ℤ → List CartItem
  | [], _, _ => []
  | i :: r, itemId, q =>
    if i.itemId = itemId then
      { i with quantity := q, totalPrice := q * i.unitPrice } :: r
    else i :: setQuantityInList r itemId q

/-- Cart.updateItemQuantity: reject quantity below 1, reject a missing item,
otherwise update the line and save. -/
def Cart.updateItemQuantity (c : Cart) (itemId : ℕ) (q : ℤ) (now : ℤ) :
    Except String Cart :=
  if q < 1 then .error "Quantity must be at least 1"
  else if (c.items.find? (fun i => i.itemId = itemId)).isSome then
    .ok (cartPreSave { c with items := setQuantityInList c.items itemId q } now)
  else .error "Item not found in cart"

/-- Cart.clearCart: empty the items, zero the running totals, mark the cart
completed, then save. -/
def Cart.clearCart (c : Cart) (now : ℤ) : Cart :=
  cartPreSave
    { c with
      items := []
      totalAmount := 0
      totalItems := 0
      totalQuantity := 0
      status := CStatus.completed } now

/-- Cart.applyDiscount: overwrite the discount subdocument, then save. -/
def Cart.applyDiscount (c : Cart) (amount : ℚ) (dtype : DiscountType)
    (reason : String) (now : ℤ) : Cart :=
  cartPreSave { c with discount := ⟨amount, dtype, reason⟩ } now

/-- Cart.setTax: overwrite taxAmount, then save. -/
def Cart.setTax (c : Cart) (taxAmount : ℚ) (now : ℤ) : Cart :=
  cartPreSave { c with taxAmount := taxAmount } now

/-- transactionItemSchema: one line of a transaction. -/
structure TxItem where
  medicineId : ℕ
  medicineName : String
  quantity : ℤ
  unitPrice : ℚ
  totalPrice : ℚ
  costPrice : Option ℚ
deriving DecidableEq

/-- transactionSchema.payment subdocument (the fields the engine reads). -/
structure Payment where
  amount : ℚ
  status : PStatus
  paidAt : Option ℤ
  failedAt : Option ℤ
  refundedAt : Option ℤ
deriving DecidableEq

/-- refundSchema: one appended refund record. -/
structure RefundRec where
  amount : ℚ
  date : ℤ
  reason : String
  paymentMethod : String
  processedBy : ℕ
deriving DecidableEq

/-- transactionSchema: the persistent financial record.  isNew models the
mongoose document flag read by the pre-save hook and by immutable fields. -/
structure Transaction where
  transactionType : TransactionType
  transactionId : Option String
  transactionNumber : Option String
  transactionRef : Option String
  items : List TxItem
  subtotal : ℚ
  tax : ℚ
  discount : ℚ
  deliveryFee : ℚ
  totalAmount : ℚ
  payment : Payment
  status : TStatus
  transactionDate : ℤ
  refunds : List RefundRec
  deliveryOption : DeliveryOption
  deliveryStatus : DStatus
  profit : ℚ
  marginPercentage : ℚ
  createdBy : Option ℕ
  updatedBy : Option ℕ
  isNew : Bool
deriving DecidableEq

/-- Sum of refunds.amount (the reduce in the totalRefunded virtual). -/
def refundsTotal : List RefundRec → ℚ
  | [] => 0
  | r :: rest => r.amount + refundsTotal rest

/-- The totalRefunded virtual field. -/
def Transaction.totalRefunded (t : Transaction) : ℚ :=
  refundsTotal t.refunds

/-- Transaction.canRefund: completed, not fully refunded, and the transaction
date within the last 90 days (90 * 24 * 60 * 60 * 1000 milliseconds). -/
def Transaction.canRefund (t : Transaction) (now : ℤ) : Bool :=
  decide (t.status = TStatus.completed) &&
    decide (t.totalRefunded < t.totalAmount) &&
    decide (t.transactionDate > now - 90 * 24 * 60 * 60 * 1000)

/-- Transaction.updateRefundStatus: fully refunded transactions become
refunded (stamping payment.refundedAt); ones with a positive refunded total
become partially refunded. -/
def Transaction.updateRefundStatus (t : Transaction) (now : ℤ) : Transaction :=
  if t.totalRefunded ≥ t.totalAmount then
    { t with
      status := TStatus.refunded
      payment := { t.payment with status := PStatus.refunded, refundedAt := some now } }
  else if t.totalRefunded > 0 then
    { t with
      status := TStatus.partiallyRefunded
      payment := { t.payment with status := PStatus.partiallyRefunded } }
  else t

/-- The refundData argument of Transaction.processRefund. -/
structure RefundData where
  amount : ℚ
  reason : String
  paymentMethod : String
  processedBy : ℕ
deriving DecidableEq

/-- Transaction.processRefund: refuse when canRefund is false; otherwise cap
the requested amount at the remaining balance, append the refund record, run
updateRefundStatus, and return the capped amount actually refunded. -/
def Transaction.processRefund (t : Transaction) (data : RefundData) (now : ℤ) :
    Except String (Transaction × ℚ) :=
  if t.canRefund now then
    let refundAmount := min data.amount (t.totalAmount - t.totalRefunded)
    let t1 := { t with
      refunds := t.refunds ++
        [(⟨refundAmount, now, data.reason, data.paymentMethod, data.processedBy⟩ : RefundRec)] }
    .ok (t1.updateRefundStatus now, refundAmount)
  else .error "Transaction cannot be refunded"

/-- The validTransitions table of Transaction.validateDeliveryTransition;
notApplicable has no table entry in the source, so its lookup, like the
terminal states, yields no allowed transition. -/
def validTransitions : DStatus → List DStatus
  | .pending => [.confirmed, .cancelled]
  | .confirmed => [.preparing, .cancelled]
  | .preparing => [.outForDelivery, .cancelled]
  | .outForDelivery => [.delivered, .failed, .cancelled]
  | .delivered => []
  | .cancelled => []
  | .failed => [.cancelled]
  | .notApplicable => []

/-- Transaction.validateDeliveryTransition: table lookup on the current
deliveryStatus, false for any pair not listed. -/
def Transaction.validateDeliveryTransition (t : Transaction) (newStatus : DStatus) : Bool :=
  (validTransitions t.deliveryStatus).contains newStatus

/-- Sum of items.totalPrice (the reduce in calculateFinancials). -/
def txItemsTotal : List TxItem → ℚ
  | [] => 0
  | i :: r => i.totalPrice + txItemsTotal r

/-- Transaction.calculateFinancials: recompute subtotal from the items,
recompute totalAmount floored at 0, and sync payment.amount to it. -/
def Transaction.calculateFinancials (t : Transaction) : Transaction :=
  let subtotal := txItemsTotal t.items
  let totalAmount := max 0 (subtotal + t.tax - t.discount + t.deliveryFee)
  { t with
    subtotal := subtotal
    totalAmount := totalAmount
    payment := { t.payment with amount := totalAmount } }

/-- Sum of (unitPrice - costPrice) * quantity (the reduce in
calculateProfit, with a missing costPrice read as 0). -/
def itemsProfit : List TxItem → ℚ
  | [] => 0
  | i :: r => (i.unitPrice - i.costPrice.getD 0) * i.quantity + itemsProfit r

/-- Transaction.calculateProfit: recompute profit and marginPercentage. -/
def Transaction.calculateProfit (t : Transaction) : Transaction :=
  let profit := itemsProfit t.items
  { t with
    profit := profit
    marginPercentage := if t.subtotal > 0 then profit / t.subtotal * 100 else 0 }

/-- Transaction.autoUpdateStatus: promote a pending transaction whose payment
completed (stamping paidAt if absent); then demote to pending, stamping
failedAt, whenever the payment failed and the transaction is not cancelled. -/
def Transaction.autoUpdateStatus (t : Transaction) (now : ℤ) : Transaction :=
  let t1 :=
    if t.payment.status = PStatus.completed ∧ t.status = TStatus.pending then
      { t with
        status := TStatus.completed
        payment := { t.payment with paidAt := some (t.payment.paidAt.getD now) } }
    else t
  if t1.payment.status = PStatus.failed ∧ t1.status ≠ TStatus.cancelled then
    { t1 with
      status := TStatus.pending
      payment := { t1.payment with failedAt := some now } }
  else t1

/-- String.padStart(8, '0') of the source's transaction-number template. -/
def padStart8 (s : String) : String :=
  ⟨List.replicate (8 - s.length) '0' ++ s.data⟩

/-- transactionType.slice(0, 3).toUpperCase() evaluated on the five values of
the transactionType enum. -/
def typeUpper3 : TransactionType → String
  | .sale => "SAL"
  | .purchase => "PUR"
  | .return_ => "RET"
  | .adjustment => "ADJ"
  | .transfer => "TRA"

/-- The transaction-number template of the pre-save hook: the three-letter
uppercased type followed by the counter zero-padded to 8 digits. -/
def formatTransactionNumber (ty : TransactionType) (counter : ℕ) : String :=
  typeUpper3 ty ++ padStart8 (Nat.repr counter)

/-- The transactionId branch of the identifier block of the transaction
pre-save hook: assigned only if not already set.  freshId stands for a
generateUniqueId result. -/
def assignTransactionId (t : Transaction) (freshId : String) : Transaction :=
  if t.transactionId = none then { t with transactionId := some freshId } else t

/-- The transactionNumber branch of the identifier block. -/
def assignTransactionNumber (t : Transaction) (counter : ℕ) : Transaction :=
  if t.transactionNumber = none then
    { t with transactionNumber := some (formatTransactionNumber t.transactionType counter) }
  else t

/-- The transactionRef branch of the identifier block. -/
def assignTransactionRef (t : Transaction) (freshRef : String) : Transaction :=
  if t.transactionRef = none then { t with transactionRef := some freshRef } else t

/-- The identifier block of the transaction pre-save hook, run only for new
documents: each of transactionId, transactionNumber, transactionRef is
assigned only if not already set.  freshId and freshRef stand for the two
generateUniqueId results, counter for Counter.getNextSequence. -/
def assignIdentifiers (t : Transaction) (freshId freshRef : String) (counter : ℕ) :
    Transaction :=
  assignTransactionRef (assignTransactionNumber (assignTransactionId t freshId) counter) freshRef

/-- transactionSchema.pre('save'): assign identifiers for new documents, then
calculateFinancials, calculateProfit, autoUpdateStatus, and default updatedBy
to createdBy. -/
def Transaction.preSave (t : Transaction) (freshId freshRef : String) (counter : ℕ)
    (now : ℤ) : Transaction :=
  let t1 := if t.isNew then assignIdentifiers t freshId freshRef counter else t
  let t2 := t1.calculateFinancials
  let t3 := t2.calculateProfit
  let t4 := t3.autoUpdateStatus now
  { t4 with
    updatedBy :=
      match t4.updatedBy with
      | some u => some u
      | none => t4.createdBy }

/-- A completed save: the pre-save hook runs, and the persisted document is
no longer new. -/
def Transaction.save (t : Transaction) (freshId freshRef : String) (counter : ℕ)
    (now : ℤ) : Transaction :=
  { t.preSave freshId freshRef counter now with isNew := false }

/-- A mongoose `immutable: true` field assignment: ignored unless the
document is new. -/
def setImmutable (isNew : Bool) (current newVal : Option String) : Option String :=
  if isNew then newVal else current

/-- A catalog medicine: the fields the checkout controller reads. -/
structure Medicine where
  id : ℕ
  name : String
  price : ℚ
  quantity : ℤ
deriving DecidableEq

/-- The persistent state one checkout touches: the medicine catalog, the
caller's pending transaction (the server-side cart of processCheckout), the
transactions created by quick checkouts, and the caller's active cart. -/
structure World where
  medicines : List Medicine
  pendingTransaction : Option Transaction
  savedTransactions : List Transaction
  cart : Option Cart
deriving DecidableEq

/-- Medicine.findById over the catalog. -/
def findMedicine (meds : List Medicine) (id : ℕ) : Option Medicine :=
  meds.find? (fun m => m.id = id)

/-- The per-item stock decrement loop ($inc quantity by -item.quantity). -/
def decrementStock (meds : List Medicine) : List TxItem → List Medicine
  | [] => meds
  | i :: r =>
    decrementStock
      (meds.map fun m =>
        if m.id = i.medicineId then { m with quantity := m.quantity - i.quantity } else m) r

/-- The failure responses of the checkout controller. -/
inductive CheckoutError
  | emptyCart
  | productNotFound (name : String)
  | productNotFoundById (id : ℕ)
  | insufficientStock (name : String) (available : ℤ)
  | paymentFailed (message : String)
  | validationFailed
deriving DecidableEq

/-- The record calculateTotal returns. -/
structure Totals where
  subtotal : ℚ
  tax : ℚ
  deliveryFee : ℚ
  total : ℚ
deriving DecidableEq

/-- Sum of item.unitPrice * item.quantity (the reduce in calculateTotal). -/
def itemsSubtotal : List TxItem → ℚ
  | [] => 0
  | i :: r => i.unitPrice * i.quantity + itemsSubtotal r

/-- The default taxRate parameter of calculateTotal (0.08); every call site
in the controller uses it. -/
def defaultTaxRate : ℚ := 8 / 100

/-- calculateTotal: subtotal over unit prices, a flat 5.00 delivery fee for
the delivery option, tax at the given rate, and their undiscounted sum. -/
def calculateTotal (items : List TxItem) (opt : DeliveryOption) (taxRate : ℚ) : Totals :=
  let subtotal := itemsSubtotal items
  let deliveryFee : ℚ := if opt = DeliveryOption.delivery then 5 else 0
  let tax := subtotal * taxRate
  ⟨subtotal, tax, deliveryFee, subtotal + tax + deliveryFee⟩

/-- The stock-validation loop of processCheckout: re-read every item's
medicine, failing on the first unresolvable reference or the first item whose
requested quantity exceeds the available stock. -/
def checkStock (meds : List Medicine) : List TxItem → Except CheckoutError Unit
  | [] => .ok ()
  | i :: r =>
    match findMedicine meds i.medicineId with
    | none => .error (.productNotFound i.medicineName)
    | some m =>
      if m.quantity < i.quantity then .error (.insufficientStock m.name m.quantity)
      else checkStock meds r

/-- The normalized result of processPaymentByType. -/
structure PaymentOutcome where
  success : Bool
  message : String
deriving DecidableEq

/-- The checkout request body fields the model reads. -/
structure CheckoutRequest where
  transactionType : TransactionType
  discount : ℚ
  deliveryOption : DeliveryOption
  saveAsDraft : Bool
  paymentType : Option String
deriving DecidableEq

/-- A checkout's outcome: the response, the persistent state afterwards, and
the amount handed to the payment dispatch, if one was dispatched. -/
structure CheckoutResult where
  result : Except CheckoutError Transaction
  world : World
  dispatched : Option ℚ

/-- The field updates processCheckout applies to the pending transaction
before saving it.  transactionRef is schema-immutable, so the controller's
reassignment goes through setImmutable; the payment subdocument is replaced
only when a payment was dispatched and succeeded. -/
def updateTransactionForCheckout (txn : Transaction) (req : CheckoutRequest)
    (totals : Totals) (paymentDone : Bool) (freshCheckoutRef : String) (now : ℤ) :
    Transaction :=
  let totalAmount := max 0 (totals.subtotal + totals.tax - req.discount + totals.deliveryFee)
  { txn with
    tax := totals.tax
    discount := req.discount
    subtotal := totals.subtotal
    deliveryFee := totals.deliveryFee
    totalAmount := totalAmount
    status := if req.saveAsDraft then TStatus.draft else TStatus.completed
    transactionRef := setImmutable txn.isNew txn.transactionRef (some freshCheckoutRef)
    transactionDate := now
    deliveryOption := req.deliveryOption
    deliveryStatus :=
      if req.deliveryOption = DeliveryOption.delivery then DStatus.pending
      else DStatus.notApplicable
    payment :=
      if paymentDone then ⟨totalAmount, PStatus.completed, some now, none, none⟩
      else txn.payment }

/-- The cart-clearing step of processCheckout: the active cart, if any, is
emptied, zeroed and completed (the inline writes match Cart.clearCart). -/
def clearActiveCart (cart : Option Cart) (now : ℤ) : Option Cart :=
  match cart with
  | some c => if c.status = CStatus.active then some (c.clearCart now) else some c
  | none => none

/-- The transactionSchema validators the checkout documents exercise,
run by mongoose when save() is called and before the user pre-save hook:
deliveryStatus must be one of its seven enum values (the controller's
not_applicable string is not among them), createdBy is required,
payment.amount may not exceed the document's totalAmount, items must be
non-empty, and every item needs a quantity of at least 1 with
totalPrice = quantity * unitPrice.  The schema's magnitude caps
(max 1000000 and the like) are not modeled. -/
def validateTransaction (t : Transaction) : Bool :=
  decide (t.deliveryStatus ≠ DStatus.notApplicable) &&
    t.createdBy.isSome &&
    decide (t.payment.amount ≤ t.totalAmount) &&
    !t.items.isEmpty &&
    t.items.all (fun i =>
      decide (i.totalPrice = i.quantity * i.unitPrice) && decide (1 ≤ i.quantity))

/-- The tail of processCheckout once stock and payment have passed:
mongoose validation runs at save; a document it rejects (a pickup or
shipping checkout sets the out-of-enum deliveryStatus not_applicable)
throws, persisting nothing, decrementing no stock and clearing no cart;
otherwise the pre-save hook runs, the document is written, stock is
decremented for a non-draft sale and the active cart is cleared for any
non-draft checkout. -/
def finishCheckout (w : World) (req : CheckoutRequest) (txn : Transaction)
    (totals : Totals) (paymentDone : Bool) (freshCheckoutRef freshId freshRef : String)
    (counter : ℕ) (now : ℤ) (dispatched : Option ℚ) : CheckoutResult :=
  let updated := updateTransactionForCheckout txn req totals paymentDone freshCheckoutRef now
  if validateTransaction updated then
    let saved := updated.save freshId freshRef counter now
    let meds :=
      if req.saveAsDraft = false ∧ req.transactionType = TransactionType.sale then
        decrementStock w.medicines saved.items
      else w.medicines
    let cart := if req.saveAsDraft then w.cart else clearActiveCart w.cart now
    ⟨.ok saved,
      { w with pendingTransaction := some saved, medicines := meds, cart := cart },
      dispatched⟩
  else ⟨.error .validationFailed, w, dispatched⟩

/-- processCheckout: find the pending transaction, reject an empty cart,
compute totals, validate stock for a non-draft sale, dispatch payment for a
non-draft request that names a payment type (aborting on a reported failure
before anything is saved), then finalize. -/
def processCheckout (w : World) (req : CheckoutRequest) (pay : ℚ → PaymentOutcome)
    (freshCheckoutRef freshId freshRef : String) (counter : ℕ) (now : ℤ) :
    CheckoutResult :=
  match w.pendingTransaction with
  | none => ⟨.error .emptyCart, w, none⟩
  | some txn =>
    if txn.items.isEmpty then ⟨.error .emptyCart, w, none⟩
    else
      let totals := calculateTotal txn.items req.deliveryOption defaultTaxRate
      let stockCheck : Except CheckoutError Unit :=
        if req.transactionType = TransactionType.sale ∧ req.saveAsDraft = false then
          checkStock w.medicines txn.items
        else .ok ()
      match stockCheck with
      | .error e => ⟨.error e, w, none⟩
      | .ok _ =>
        if req.saveAsDraft = false ∧ req.paymentType.isSome then
          let pr := pay totals.total
          if pr.success then
            finishCheckout w req txn totals true freshCheckoutRef freshId freshRef
              counter now (some totals.total)
          else ⟨.error (.paymentFailed pr.message), w, some totals.total⟩
        else
          finishCheckout w req txn totals false freshCheckoutRef freshId freshRef
            counter now none

/-- One requested line of quickCheckout (an absent unitPrice, like a zero
one, falls back to the catalog price via the source's short-circuit or). -/
structure QuickItem where
  medicineId : ℕ
  quantity : ℤ
  unitPrice : Option ℚ
deriving DecidableEq

/-- The item-validation loop of quickCheckout: resolve every medicine,
reject insufficient stock for a sale, and build the transaction items. -/
def buildQuickItems (meds : List Medicine) (ty : TransactionType) :
    List QuickItem → Except CheckoutError (List TxItem)
  | [] => .ok []
  | i :: r =>
    match findMedicine meds i.medicineId with
    | none => .error (.productNotFoundById i.medicineId)
    | some m =>
      if ty = TransactionType.sale ∧ m.quantity < i.quantity then
        .error (.insufficientStock m.name m.quantity)
      else
        let unitPrice :=
          match i.unitPrice with
          | some u => if u = 0 then m.price else u
          | none => m.price
        match buildQuickItems meds ty r with
        | .error e => .error e
        | .ok rest =>
          .ok ({ medicineId := m.id, medicineName := m.name, quantity := i.quantity,
                 unitPrice := unitPrice, totalPrice := i.quantity * unitPrice,
                 costPrice := none } :: rest)

/-- quickCheckout: validate the explicit item list, compute the discounted
total floored at 0, dispatch payment when a payment type is named (aborting
on failure before any transaction exists), then create and save a completed
transaction and decrement stock for a sale.  The controller never sets the
schema-required createdBy (and a non-delivery request carries the
out-of-enum deliveryStatus not_applicable), so mongoose validation rejects
the document at save and nothing is persisted or decremented; the model
keeps the write path for the validated case. -/
def quickCheckout (w : World) (req : CheckoutRequest) (qitems : List QuickItem)
    (pay : ℚ → PaymentOutcome) (freshNumber freshQuickRef freshId freshRef : String)
    (counter : ℕ) (now : ℤ) : CheckoutResult :=
  if qitems.isEmpty then ⟨.error .emptyCart, w, none⟩
  else
    match buildQuickItems w.medicines req.transactionType qitems with
    | .error e => ⟨.error e, w, none⟩
    | .ok titems =>
      let totals := calculateTotal titems req.deliveryOption defaultTaxRate
      let totalAmount := max 0 (totals.subtotal + totals.tax - req.discount + totals.deliveryFee)
      let finish := fun (paymentDone : Bool) (dispatched : Option ℚ) =>
        let txn : Transaction :=
          { transactionType := req.transactionType
            transactionId := none
            transactionNumber := some freshNumber
            transactionRef := some freshQuickRef
            items := titems
            subtotal := totals.subtotal
            tax := totals.tax
            discount := req.discount
            deliveryFee := totals.deliveryFee
            totalAmount := totalAmount
            payment :=
              if paymentDone then ⟨totalAmount, PStatus.completed, some now, none, none⟩
              else ⟨0, PStatus.pending, none, none, none⟩
            status := TStatus.completed
            transactionDate := now
            refunds := []
            deliveryOption := req.deliveryOption
            deliveryStatus :=
              if req.deliveryOption = DeliveryOption.delivery then DStatus.pending
              else DStatus.notApplicable
            profit := 0
            marginPercentage := 0
            createdBy := none
            updatedBy := none
            isNew := true }
        if validateTransaction txn then
          let saved := txn.save freshId freshRef counter now
          let meds :=
            if req.transactionType = TransactionType.sale then decrementStock w.medicines titems
            else w.medicines
          (⟨.ok saved,
            { w with savedTransactions := w.savedTransactions ++ [saved], medicines := meds },
            dispatched⟩ : CheckoutResult)
        else (⟨.error .validationFailed, w, dispatched⟩ : CheckoutResult)
      if req.paymentType.isSome then
        let pr := pay totalAmount
        if pr.success then finish true (some totalAmount)
        else ⟨.error (.paymentFailed pr.message), w, some totalAmount⟩
      else finish false none

/-- C3 counterexample transaction: already completed, but its payment
reports failed. -/
def regressionTxn : Transaction :=
  { transactionType := TransactionType.sale
    transactionId := some "TXN-1"
    transactionNumber := some "SAL00000001"
    transactionRef := some "REF-1"
    items := []
    subtotal := 100
    tax := 0
    discount := 0
    deliveryFee := 0
    totalAmount := 100
    payment := ⟨100, PStatus.failed, none, none, none⟩
    status := TStatus.completed
    transactionDate := 0
    refunds := []
    deliveryOption := DeliveryOption.pickup
    deliveryStatus := DStatus.pending
    profit := 0
    marginPercentage := 0
    createdBy := some 1
    updatedBy := none
    isNew := false }

/-- C3 witness transaction: completed with a completed payment. -/
def settledTxn : Transaction :=
  { regressionTxn with
    payment := ⟨100, PStatus.completed, some 3, none, none⟩
    status := TStatus.completed }

/-- The delivery transition table as the spec states it, for comparison with
the source's validateDeliveryTransition. -/
def allowedDeliveryPairs : List (DStatus × DStatus) :=
  [(.pending, .confirmed), (.pending, .cancelled),
   (.confirmed, .preparing), (.confirmed, .cancelled),
   (.preparing, .outForDelivery), (.preparing, .cancelled),
   (.outForDelivery, .delivered), (.outForDelivery, .failed), (.outForDelivery, .cancelled),
   (.failed, .cancelled)]

/-- A sequence of refund attempts: each successful processRefund feeds the
updated transaction to the next attempt, a refused one leaves it unchanged. -/
def processRefunds (t : Transaction) : List (RefundData × ℤ) → Transaction
  | [] => t
  | (d, n) :: rest =>
    match t.processRefund d n with
    | .ok p => processRefunds p.1 rest
    | .error _ => processRefunds t rest

/-- C1 witness input: a completed, fully paid, unrefunded transaction of 100
dated inside the 90-day window. -/
def refundTxn : Transaction :=
  { transactionType := TransactionType.sale
    transactionId := some "TXN-2"
    transactionNumber := some "SAL00000002"
    transactionRef := some "REF-2"
    items := []
    subtotal := 100
    tax := 0
    discount := 0
    deliveryFee := 0
    totalAmount := 100
    payment := ⟨100, PStatus.completed, some 0, none, none⟩
    status := TStatus.completed
    transactionDate := 0
    refunds := []
    deliveryOption := DeliveryOption.pickup
    deliveryStatus := DStatus.pending
    profit := 0
    marginPercentage := 0
    createdBy := some 1
    updatedBy := none
    isNew := false }

/-- The transaction refundTxn becomes after a refund request of 160 is
capped to the remaining balance of 100. -/
def refundedTxn : Transaction :=
  { refundTxn with
    refunds := [⟨100, 0, "damaged", "cash", 7⟩]
    status := TStatus.refunded
    payment := ⟨100, PStatus.refunded, some 0, none, some 0⟩ }

/-- The cart invariants as the spec states them: running totals recomputed
from the items, and finalAmount = totalAmount − discountValue + taxAmount. -/
def cartInvariants (c : Cart) : Prop :=
  c.totalAmount = cartItemsTotal c.items ∧
  c.totalItems = c.items.length ∧
  c.totalQuantity = cartItemsQuantity c.items ∧
  c.finalAmount = c.totalAmount - discountValue c.totalAmount c.discount + c.taxAmount

/-- C7 witness input cart: item A (qty 2, unit 10.00) and item B (qty 1,
unit 5.00), no discount, no tax. -/
def demoCart : Cart :=
  { items := [⟨1, 11, 2, 10, 20⟩, ⟨2, 12, 1, 5, 5⟩]
    totalAmount := 25
    totalItems := 2
    totalQuantity := 3
    discount := ⟨0, DiscountType.fixed, ""⟩
    taxAmount := 0
    finalAmount := 25
    status := CStatus.active
    lastActivity := 0 }

/-- The cart demoCart becomes after updateItemQuantity raises item 1 to 3. -/
def demoCartUpdated : Cart :=
  { demoCart with
    items := [⟨1, 11, 3, 10, 30⟩, ⟨2, 12, 1, 5, 5⟩]
    totalAmount := 35
    totalQuantity := 4
    finalAmount := 35 }

/-- C10 counterexample cart: a tax of 5 and a fixed discount of 5 were both
applied before the clear. -/
def cexCart : Cart :=
  { items := [⟨1, 11, 1, 10, 10⟩]
    totalAmount := 10
    totalItems := 1
    totalQuantity := 1
    discount := ⟨5, DiscountType.fixed, "loyal"⟩
    taxAmount := 5
    finalAmount := 10
    status := CStatus.active
    lastActivity := 0 }

/-- C10 witness cart: tax 5, fixed discount 2. -/
def clearWitnessCart : Cart :=
  { cexCart with discount := ⟨2, DiscountType.fixed, ""⟩ }

/-- C4 witness transaction: a pending sale cart holding 2 units of
medicine A. -/
def stockTxn : Transaction :=
  { transactionType := TransactionType.sale
    transactionId := some "TXN-S"
    transactionNumber := some "SAL00000003"
    transactionRef := some "REF-S"
    items := [⟨1, "A", 2, 10, 20, none⟩]
    subtotal := 20
    tax := 0
    discount := 0
    deliveryFee := 0
    totalAmount := 20
    payment := ⟨20, PStatus.pending, none, none, none⟩
    status := TStatus.pending
    transactionDate := 0
    refunds := []
    deliveryOption := DeliveryOption.pickup
    deliveryStatus := DStatus.notApplicable
    profit := 0
    marginPercentage := 0
    createdBy := some 1
    updatedBy := none
    isNew := false }

/-- C4 witness world: only 1 unit of medicine A in stock. -/
def stockWorld : World :=
  { medicines := [⟨1, "A", 10, 1⟩]
    pendingTransaction := some stockTxn
    savedTransactions := []
    cart := none }

/-- A non-draft sale checkout request with a cash payment and a discount
of 2. -/
def saleReq : CheckoutRequest :=
  ⟨TransactionType.sale, 2, DeliveryOption.pickup, false, some "cash"⟩

/-- A non-draft delivery sale checkout request with a cash payment and a
discount of 2. -/
def deliveryReq : CheckoutRequest :=
  ⟨TransactionType.sale, 2, DeliveryOption.delivery, false, some "cash"⟩

/-- C5 witness world: plenty of stock for the pending 2-unit sale. -/
def payWorld : World :=
  { medicines := [⟨1, "A", 10, 5⟩]
    pendingTransaction := some stockTxn
    savedTransactions := []
    cart := none }

/-- A payment dispatch that always reports a decline. -/
def failPay : ℚ → PaymentOutcome := fun _ => ⟨false, "Payment declined by bank"⟩

/-- The transaction items quickCheckout builds for 2 units of medicine A at
the catalog price. -/
def quickItemsResult : List TxItem := [⟨1, "A", 2, 10, 20, none⟩]

/-- A payment dispatch that always approves. -/
def okPay : ℚ → PaymentOutcome := fun _ => ⟨true, "approved"⟩

/-- C8 witness input: a fresh, never-saved sale transaction with no
identifiers assigned. -/
def freshTxn : Transaction :=
  { transactionType := TransactionType.sale
    transactionId := none
    transactionNumber := none
    transactionRef := none
    items := []
    subtotal := 0
    tax := 0
    discount := 0
    deliveryFee := 0
    totalAmount := 0
    payment := ⟨0, PStatus.pending, none, none, none⟩
    status := TStatus.pending
    transactionDate := 0
    refunds := []
    deliveryOption := DeliveryOption.pickup
    deliveryStatus := DStatus.pending
    profit := 0
    marginPercentage := 0
    createdBy := some 1
    updatedBy := none
    isNew := true }

/-! Theorems. -/

/-! Helper lemmas shared by the claim theorems. -/

theorem autoUpdateStatus_preserves (t : Transaction) (now : ℤ) :
    (t.autoUpdateStatus now).transactionId = t.transactionId ∧
    (t.autoUpdateStatus now).transactionNumber = t.transactionNumber ∧
    (t.autoUpdateStatus now).transactionRef = t.transactionRef ∧
    (t.autoUpdateStatus now).subtotal = t.subtotal ∧
    (t.autoUpdateStatus now).totalAmount = t.totalAmount ∧
    (t.autoUpdateStatus now).tax = t.tax ∧
    (t.autoUpdateStatus now).discount = t.discount ∧
    (t.autoUpdateStatus now).deliveryFee = t.deliveryFee ∧
    (t.autoUpdateStatus now).items = t.items ∧
    (t.autoUpdateStatus now).payment.amount = t.payment.amount := by
  simp only [Transaction.autoUpdateStatus]
  split <;> split <;> simp

theorem refundsTotal_append (l1 l2 : List RefundRec) :
    refundsTotal (l1 ++ l2) = refundsTotal l1 + refundsTotal l2 := by
  induction l1 with
  | nil => simp [refundsTotal]
  | cons r rest ih => simp [refundsTotal, ih]; ring

/-- C2: after every save of a Transaction, subtotal is the sum of the items'
totalPrice, totalAmount is max(0, subtotal + tax − discount + deliveryFee),
and payment.amount is re-synchronized to totalAmount. -/
theorem transaction_save_financials (t : Transaction) (fid fref : String) (ctr : ℕ)
    (now : ℤ) :
    (t.save fid fref ctr now).subtotal = txItemsTotal (t.save fid fref ctr now).items ∧
    (t.save fid fref ctr now).totalAmount =
      max 0 ((t.save fid fref ctr now).subtotal + (t.save fid fref ctr now).tax -
        (t.save fid fref ctr now).discount + (t.save fid fref ctr now).deliveryFee) ∧
    (t.save fid fref ctr now).payment.amount = (t.save fid fref ctr now).totalAmount := by
  simp only [Transaction.save, Transaction.preSave]
  set t1 := if t.isNew then assignIdentifiers t fid fref ctr else t with ht1
  set t2 := t1.calculateFinancials with ht2
  set t3 := t2.calculateProfit with ht3
  have hp := autoUpdateStatus_preserves t3 now
  have h3 : t3.subtotal = t2.subtotal ∧ t3.totalAmount = t2.totalAmount ∧
      t3.tax = t2.tax ∧ t3.discount = t2.discount ∧ t3.deliveryFee = t2.deliveryFee ∧
      t3.items = t2.items ∧ t3.payment.amount = t2.payment.amount := by
    simp [ht3, Transaction.calculateProfit]
  have h2 : t2.subtotal = txItemsTotal t1.items ∧
      t2.totalAmount = max 0 (txItemsTotal t1.items + t1.tax - t1.discount + t1.deliveryFee) ∧
      t2.tax = t1.tax ∧ t2.discount = t1.discount ∧ t2.deliveryFee = t1.deliveryFee ∧
      t2.items = t1.items ∧ t2.payment.amount = t2.totalAmount := by
    simp [ht2, Transaction.calculateFinancials]
  refine ⟨?_, ?_, ?_⟩ <;>
    simp only [hp.2.2.2.1, hp.2.2.2.2.1, hp.2.2.2.2.2.1, hp.2.2.2.2.2.2.1,
      hp.2.2.2.2.2.2.2.1, hp.2.2.2.2.2.2.2.2.1, hp.2.2.2.2.2.2.2.2.2,
      h3.1, h3.2.1, h3.2.2.1, h3.2.2.2.1, h3.2.2.2.2.1, h3.2.2.2.2.2.1, h3.2.2.2.2.2.2,
      h2.1, h2.2.1, h2.2.2.1, h2.2.2.2.1, h2.2.2.2.2.1, h2.2.2.2.2.2.1, h2.2.2.2.2.2.2]

/-- C3 (amended): the auto-status transition promotes pending to completed
when the payment completed (stamping paidAt if absent), demotes to pending
stamping failedAt whenever the payment failed and the status is not
cancelled — including when the status is completed or refunded — and leaves
an already-completed or refunded transaction unchanged for every
payment.status other than failed. -/
theorem autoUpdateStatus_amended (t : Transaction) (now : ℤ) :
    (t.payment.status = PStatus.completed → t.status = TStatus.pending →
      (t.autoUpdateStatus now).status = TStatus.completed ∧
      (t.autoUpdateStatus now).payment.paidAt = some (t.payment.paidAt.getD now)) ∧
    (t.payment.status = PStatus.failed → t.status ≠ TStatus.cancelled →
      (t.autoUpdateStatus now).status = TStatus.pending ∧
      (t.autoUpdateStatus now).payment.failedAt = some now) ∧
    (t.status = TStatus.completed → t.payment.status ≠ PStatus.failed →
      (t.autoUpdateStatus now).status = TStatus.completed) ∧
    (t.status = TStatus.refunded → t.payment.status ≠ PStatus.failed →
      (t.autoUpdateStatus now).status = TStatus.refunded) := by
  simp only [Transaction.autoUpdateStatus]
  refine ⟨?_, ?_, ?_, ?_⟩ <;> intro h1 h2 <;> split <;> split <;> simp_all

/-- C3 counterexample: the auto-status transition does regress an
already-completed transaction when payment.status is failed — its status does
not stay completed for every value of payment.status, it drops to pending. -/
theorem autoUpdateStatus_regression_cex :
    regressionTxn.status = TStatus.completed ∧
    regressionTxn.payment.status = PStatus.failed ∧
    (regressionTxn.autoUpdateStatus 0).status = TStatus.pending ∧
    (regressionTxn.autoUpdateStatus 0).status ≠ TStatus.completed := by
  refine ⟨rfl, rfl, ?_, ?_⟩ <;> simp [Transaction.autoUpdateStatus, regressionTxn]

/-- C3 witness: an already-completed transaction whose payment did not fail
keeps its status through the auto-status transition. -/
theorem autoUpdateStatus_amended_witness :
    (settledTxn.autoUpdateStatus 7).status = TStatus.completed :=
  (autoUpdateStatus_amended settledTxn 7).2.2.1 rfl (by decide)

/-- C9: validateDeliveryTransition accepts exactly the pairs of the spec's
table and rejects every other pair, including every self-transition and
every transition out of the terminal states delivered and cancelled. -/
theorem validateDeliveryTransition_table (t : Transaction) (newStatus : DStatus) :
    t.validateDeliveryTransition newStatus = true ↔
      (t.deliveryStatus, newStatus) ∈ allowedDeliveryPairs := by
  have h : ∀ s n, (validTransitions s).contains n = true ↔ (s, n) ∈ allowedDeliveryPairs := by
    decide
  exact h t.deliveryStatus newStatus

theorem updateRefundStatus_spec (u : Transaction) (now : ℤ) :
    (u.updateRefundStatus now).totalAmount = u.totalAmount ∧
    (u.updateRefundStatus now).refunds = u.refunds ∧
    (u.totalRefunded ≥ u.totalAmount →
      (u.updateRefundStatus now).status = TStatus.refunded ∧
      (u.updateRefundStatus now).payment.status = PStatus.refunded ∧
      (u.updateRefundStatus now).payment.refundedAt = some now) ∧
    (¬ u.totalRefunded ≥ u.totalAmount → 0 < u.totalRefunded →
      (u.updateRefundStatus now).status = TStatus.partiallyRefunded ∧
      (u.updateRefundStatus now).payment.status = PStatus.partiallyRefunded) := by
  simp only [Transaction.updateRefundStatus]
  split_ifs with h1 h2 <;> simp_all

theorem processRefund_ok_elim (t : Transaction) (d : RefundData) (now : ℤ)
    (t' : Transaction) (amt : ℚ) (h : t.processRefund d now = .ok (t', amt)) :
    t.canRefund now = true ∧
    amt = min d.amount (t.totalAmount - t.totalRefunded) ∧
    t'.totalAmount = t.totalAmount ∧
    t'.totalRefunded = t.totalRefunded + amt ∧
    (t'.totalRefunded ≥ t.totalAmount →
      t'.status = TStatus.refunded ∧ t'.payment.status = PStatus.refunded ∧
      t'.payment.refundedAt = some now) ∧
    (t'.totalRefunded < t.totalAmount → 0 < t'.totalRefunded →
      t'.status = TStatus.partiallyRefunded ∧
      t'.payment.status = PStatus.partiallyRefunded) := by
  by_cases hc : t.canRefund now
  · simp only [Transaction.processRefund, hc, if_pos, Except.ok.injEq, Prod.mk.injEq] at h
    obtain ⟨ht', hamt⟩ := h
    set t1 : Transaction := { t with
      refunds := t.refunds ++
        [(⟨min d.amount (t.totalAmount - t.totalRefunded), now, d.reason, d.paymentMethod,
          d.processedBy⟩ : RefundRec)] } with ht1
    have hu := updateRefundStatus_spec t1 now
    have htr1 : t1.totalRefunded = t.totalRefunded + min d.amount (t.totalAmount - t.totalRefunded) := by
      simp [ht1, Transaction.totalRefunded, refundsTotal_append, refundsTotal]
    have htot1 : t1.totalAmount = t.totalAmount := rfl
    have htr' : t'.totalRefunded = t1.totalRefunded := by
      rw [← ht']
      simp [Transaction.totalRefunded, hu.2.1]
    refine ⟨hc, hamt.symm, ?_, ?_, ?_, ?_⟩
    · rw [← ht', hu.1, htot1]
    · rw [htr', htr1, ← hamt]
    · intro hge
      rw [← ht']
      exact hu.2.2.1 (by rw [htot1, ← htr']; exact hge)
    · intro hlt hpos
      rw [← ht']
      exact hu.2.2.2 (by rw [htot1, ← htr']; exact not_le.mpr hlt) (by rw [← htr']; exact hpos)
  · simp [Transaction.processRefund, hc] at h

theorem processRefund_refunded_le (t : Transaction) (d : RefundData) (now : ℤ)
    (t' : Transaction) (amt : ℚ) (h : t.processRefund d now = .ok (t', amt)) :
    t'.totalRefunded ≤ t.totalAmount := by
  obtain ⟨_, hamt, _, htr, _, _⟩ := processRefund_ok_elim t d now t' amt h
  have hmin : min d.amount (t.totalAmount - t.totalRefunded) ≤ t.totalAmount - t.totalRefunded :=
    min_le_right _ _
  rw [htr, hamt]
  linarith

theorem processRefunds_bound (reqs : List (RefundData × ℤ)) :
    ∀ t : Transaction, t.totalRefunded ≤ t.totalAmount →
      (processRefunds t reqs).totalRefunded ≤ t.totalAmount ∧
      (processRefunds t reqs).totalAmount = t.totalAmount := by
  induction reqs with
  | nil => intro t ht; exact ⟨ht, rfl⟩
  | cons hd tl ih =>
    intro t ht
    rw [processRefunds]
    split
    · rename_i p hp
      have hle := processRefund_refunded_le t hd.1 hd.2 p.1 p.2 (by rw [← hp])
      have htot : p.1.totalAmount = t.totalAmount :=
        (processRefund_ok_elim t hd.1 hd.2 p.1 p.2 (by rw [← hp])).2.2.1
      have := ih p.1 (by rw [htot]; exact hle)
      exact ⟨by rw [← htot]; exact (htot ▸ this.1), by rw [this.2, htot]⟩
    · exact ih t ht

/-- C1: processRefund refuses exactly when canRefund is false (completed
status, refundable balance, 90-day window); otherwise it refunds exactly
min(requested, totalAmount − totalRefunded) and returns that amount, the
refunded total never exceeds totalAmount over any sequence of refunds, a
fully refunded transaction becomes refunded on both statuses with
refundedAt stamped, and a partially refunded one becomes
partially_refunded. -/
theorem processRefund_spec (t : Transaction) (d : RefundData) (now : ℤ) :
    ((∃ p, t.processRefund d now = .ok p) ↔ t.canRefund now = true) ∧
    (t.canRefund now = true ↔
      (t.status = TStatus.completed ∧ t.totalRefunded < t.totalAmount ∧
        t.transactionDate > now - 90 * 24 * 60 * 60 * 1000)) ∧
    (∀ t' amt, t.processRefund d now = .ok (t', amt) →
      amt = min d.amount (t.totalAmount - t.totalRefunded) ∧
      t'.totalAmount = t.totalAmount ∧
      t'.totalRefunded = t.totalRefunded + amt ∧
      t'.totalRefunded ≤ t.totalAmount ∧
      (t'.totalRefunded = t.totalAmount →
        t'.status = TStatus.refunded ∧ t'.payment.status = PStatus.refunded ∧
        t'.payment.refundedAt = some now) ∧
      (0 < t'.totalRefunded → t'.totalRefunded < t.totalAmount →
        t'.status = TStatus.partiallyRefunded ∧
        t'.payment.status = PStatus.partiallyRefunded)) ∧
    (∀ reqs, t.totalRefunded ≤ t.totalAmount →
      (processRefunds t reqs).totalRefunded ≤ t.totalAmount) := by
  refine ⟨?_, ?_, ?_, ?_⟩
  · constructor
    · rintro ⟨p, hp⟩
      exact (processRefund_ok_elim t d now p.1 p.2 (by rw [← hp])).1
    · intro hc
      cases hp : t.processRefund d now with
      | ok p => exact ⟨p, rfl⟩
      | error e =>
        exfalso
        simp [Transaction.processRefund, hc] at hp
  · simp [Transaction.canRefund, and_assoc]
  · intro t' amt h
    obtain ⟨hc, hamt, htot, htr, hge, hlt⟩ := processRefund_ok_elim t d now t' amt h
    refine ⟨hamt, htot, htr, processRefund_refunded_le t d now t' amt h, ?_,
      fun hpos hlt' => hlt hlt' hpos⟩
    intro heq
    exact hge (le_of_eq heq.symm)
  · intro reqs ht
    exact (processRefunds_bound reqs t ht).1

/-- C1 witness: a refund request of 160 against a balance of 100 is allowed,
succeeds, returns the capped amount 100 = min(160, 100 − 0), and a sequence
of two refund attempts never pushes the refunded total past 100. -/
theorem processRefund_spec_witness :
    refundTxn.canRefund 0 = true ∧
    (∃ p, refundTxn.processRefund ⟨160, "damaged", "cash", 7⟩ 0 = .ok p) ∧
    (100 : ℚ) = min 160 (refundTxn.totalAmount - refundTxn.totalRefunded) ∧
    refundedTxn.status = TStatus.refunded ∧
    (processRefunds refundTxn
        [(⟨60, "a", "cash", 7⟩, 0), (⟨60, "b", "cash", 7⟩, 0)]).totalRefunded ≤
      refundTxn.totalAmount := by
  have h := processRefund_spec refundTxn ⟨160, "damaged", "cash", 7⟩ 0
  have hc : refundTxn.canRefund 0 = true := by
    norm_num [Transaction.canRefund, Transaction.totalRefunded, refundsTotal, refundTxn]
  have hok : refundTxn.processRefund ⟨160, "damaged", "cash", 7⟩ 0 = .ok (refundedTxn, 100) := by
    norm_num [Transaction.processRefund, Transaction.canRefund,
      Transaction.updateRefundStatus, Transaction.totalRefunded,
      refundsTotal_append, refundsTotal, refundTxn, refundedTxn]
  have h4 := h.2.2.1 refundedTxn 100 hok
  refine ⟨hc, h.1.mpr hc, h4.1, ?_, ?_⟩
  · exact (h4.2.2.2.2.1 (by
      norm_num [Transaction.totalRefunded, refundsTotal, refundedTxn, refundTxn])).1
  · exact h.2.2.2 [(⟨60, "a", "cash", 7⟩, 0), (⟨60, "b", "cash", 7⟩, 0)]
      (by norm_num [Transaction.totalRefunded, refundsTotal, refundTxn])

theorem cartPreSave_invariants (c : Cart) (now : ℤ) : cartInvariants (cartPreSave c now) :=
  ⟨rfl, rfl, rfl, rfl⟩

/-- C7: every persisted cart write — the pre-save recompute itself and each
mutating operation addItem, removeItem, updateItemQuantity, applyDiscount,
setTax — leaves the cart satisfying the invariants: totalAmount is the sum of
the items' totalPrice, totalItems the item count, totalQuantity the summed
quantities, and finalAmount = totalAmount − discountValue + taxAmount. -/
theorem cart_save_invariants :
    (∀ c : Cart, ∀ now : ℤ, cartInvariants (cartPreSave c now)) ∧
    (∀ c : Cart, ∀ d : AddItemData, ∀ now : ℤ, cartInvariants (c.addItem d now)) ∧
    (∀ c : Cart, ∀ itemId : ℕ, ∀ now : ℤ, cartInvariants (c.removeItem itemId now)) ∧
    (∀ c : Cart, ∀ itemId : ℕ, ∀ q now : ℤ, ∀ c' : Cart,
      c.updateItemQuantity itemId q now = .ok c' → cartInvariants c') ∧
    (∀ c : Cart, ∀ a : ℚ, ∀ ty : DiscountType, ∀ r : String, ∀ now : ℤ,
      cartInvariants (c.applyDiscount a ty r now)) ∧
    (∀ c : Cart, ∀ ta : ℚ, ∀ now : ℤ, cartInvariants (c.setTax ta now)) := by
  refine ⟨cartPreSave_invariants, fun c d now => cartPreSave_invariants _ _,
    fun c i now => cartPreSave_invariants _ _, ?_,
    fun c a ty r now => cartPreSave_invariants _ _,
    fun c ta now => cartPreSave_invariants _ _⟩
  intro c itemId q now c' h
  simp only [Cart.updateItemQuantity] at h
  split_ifs at h with h1 h2
  · simp only [Except.ok.injEq] at h
    rw [← h]
    exact cartPreSave_invariants _ _

/-- C7 witness: updateItemQuantity succeeds on the two-item cart and its
result satisfies the invariants, and applying a 10% discount to the 25.00
cart yields finalAmount 22.50. -/
theorem cart_save_invariants_witness :
    demoCart.updateItemQuantity 1 3 0 = .ok demoCartUpdated ∧
    cartInvariants demoCartUpdated ∧
    (demoCart.applyDiscount 10 DiscountType.percentage "" 0).finalAmount = 45 / 2 := by
  have hok : demoCart.updateItemQuantity 1 3 0 = .ok demoCartUpdated := by
    norm_num [Cart.updateItemQuantity, setQuantityInList, cartPreSave, cartItemsTotal,
      cartItemsQuantity, discountValue, demoCart, demoCartUpdated, List.find?]
  refine ⟨hok, cart_save_invariants.2.2.2.1 demoCart 1 3 0 demoCartUpdated hok, ?_⟩
  norm_num [Cart.applyDiscount, cartPreSave, cartItemsTotal, discountValue, demoCart]

/-- C10 (amended): clearCart empties the items, zeroes the running totals,
completes the cart, leaves discount and taxAmount untouched, and the
save-time recompute sets finalAmount to taxAmount − discountValue (with
discountValue = discount.amount for a fixed discount and 0 for a percentage
one on the emptied cart) — which is nonzero whenever taxAmount differs from
that discount value. -/
theorem clearCart_spec (c : Cart) (now : ℤ) :
    (c.clearCart now).items = [] ∧
    (c.clearCart now).totalAmount = 0 ∧
    (c.clearCart now).totalItems = 0 ∧
    (c.clearCart now).totalQuantity = 0 ∧
    (c.clearCart now).status = CStatus.completed ∧
    (c.clearCart now).discount = c.discount ∧
    (c.clearCart now).taxAmount = c.taxAmount ∧
    (c.clearCart now).finalAmount =
      c.taxAmount - (if c.discount.dtype = DiscountType.fixed then c.discount.amount else 0) ∧
    (c.taxAmount ≠ (if c.discount.dtype = DiscountType.fixed then c.discount.amount else 0) →
      (c.clearCart now).finalAmount ≠ 0) := by
  have hfa : (c.clearCart now).finalAmount =
      c.taxAmount - (if c.discount.dtype = DiscountType.fixed then c.discount.amount else 0) := by
    rcases hd : c.discount.dtype
    all_goals simp [Cart.clearCart, cartPreSave, cartItemsTotal, cartItemsQuantity,
      discountValue, hd]
    all_goals ring
  refine ⟨rfl, rfl, rfl, rfl, rfl, rfl, rfl, hfa, ?_⟩
  intro hne
  rw [hfa]
  exact sub_ne_zero.mpr hne

/-- C10 counterexample: a cleared cart that had both a tax of 5 and a fixed
discount of 5 ends with finalAmount exactly 0, refuting the claim that the
cleared finalAmount is nonzero whenever a tax or a fixed discount was
previously applied. -/
theorem clearCart_cex :
    cexCart.taxAmount = 5 ∧
    cexCart.discount.dtype = DiscountType.fixed ∧
    cexCart.discount.amount = 5 ∧
    (cexCart.clearCart 0).finalAmount = 0 := by
  refine ⟨rfl, rfl, rfl, ?_⟩
  norm_num [Cart.clearCart, cartPreSave, cartItemsTotal, discountValue, cexCart,
    if_neg (show ¬ DiscountType.fixed = DiscountType.percentage by decide)]

/-- C10 witness: clearing a cart with tax 5 and fixed discount 2 completes
it and leaves a nonzero finalAmount. -/
theorem clearCart_spec_witness :
    (clearWitnessCart.clearCart 0).status = CStatus.completed ∧
    (clearWitnessCart.clearCart 0).finalAmount ≠ 0 := by
  have h := clearCart_spec clearWitnessCart 0
  exact ⟨h.2.2.2.2.1, h.2.2.2.2.2.2.2.2 (by norm_num [clearWitnessCart, cexCart])⟩

theorem save_ids_step (t : Transaction) (fid fref : String) (ctr : ℕ) (now : ℤ) :
    (t.save fid fref ctr now).transactionId =
      (if t.isNew then assignIdentifiers t fid fref ctr else t).transactionId ∧
    (t.save fid fref ctr now).transactionNumber =
      (if t.isNew then assignIdentifiers t fid fref ctr else t).transactionNumber ∧
    (t.save fid fref ctr now).transactionRef =
      (if t.isNew then assignIdentifiers t fid fref ctr else t).transactionRef := by
  have hp := autoUpdateStatus_preserves
    ((if t.isNew then assignIdentifiers t fid fref ctr else t).calculateFinancials.calculateProfit)
    now
  refine ⟨?_, ?_, ?_⟩ <;> simp only [Transaction.save, Transaction.preSave]
  · rw [hp.1]
    rfl
  · rw [hp.2.1]
    rfl
  · rw [hp.2.2.1]
    rfl

theorem assignTransactionId_fields (t : Transaction) (fid : String) :
    (assignTransactionId t fid).transactionId =
      (if t.transactionId = none then some fid else t.transactionId) ∧
    (assignTransactionId t fid).transactionNumber = t.transactionNumber ∧
    (assignTransactionId t fid).transactionRef = t.transactionRef ∧
    (assignTransactionId t fid).transactionType = t.transactionType := by
  unfold assignTransactionId
  split_ifs <;> exact ⟨rfl, rfl, rfl, rfl⟩

theorem assignTransactionNumber_fields (t : Transaction) (ctr : ℕ) :
    (assignTransactionNumber t ctr).transactionNumber =
      (if t.transactionNumber = none then
        some (formatTransactionNumber t.transactionType ctr) else t.transactionNumber) ∧
    (assignTransactionNumber t ctr).transactionId = t.transactionId ∧
    (assignTransactionNumber t ctr).transactionRef = t.transactionRef ∧
    (assignTransactionNumber t ctr).transactionType = t.transactionType := by
  unfold assignTransactionNumber
  split_ifs <;> exact ⟨rfl, rfl, rfl, rfl⟩

theorem assignTransactionRef_fields (t : Transaction) (fref : String) :
    (assignTransactionRef t fref).transactionRef =
      (if t.transactionRef = none then some fref else t.transactionRef) ∧
    (assignTransactionRef t fref).transactionId = t.transactionId ∧
    (assignTransactionRef t fref).transactionNumber = t.transactionNumber := by
  unfold assignTransactionRef
  split_ifs <;> exact ⟨rfl, rfl, rfl⟩

theorem assignIdentifiers_fields (t : Transaction) (fid fref : String) (ctr : ℕ) :
    (assignIdentifiers t fid fref ctr).transactionId =
      (if t.transactionId = none then some fid else t.transactionId) ∧
    (assignIdentifiers t fid fref ctr).transactionNumber =
      (if t.transactionNumber = none then
        some (formatTransactionNumber t.transactionType ctr) else t.transactionNumber) ∧
    (assignIdentifiers t fid fref ctr).transactionRef =
      (if t.transactionRef = none then some fref else t.transactionRef) := by
  unfold assignIdentifiers
  have h1 := assignTransactionId_fields t fid
  have h2 := assignTransactionNumber_fields (assignTransactionId t fid) ctr
  have h3 := assignTransactionRef_fields
    (assignTransactionNumber (assignTransactionId t fid) ctr) fref
  refine ⟨?_, ?_, ?_⟩
  · rw [h3.2.1, h2.2.1, h1.1]
  · rw [h3.2.2, h2.1, h1.2.1, h1.2.2.2]
  · rw [h3.1, h2.2.2.1, h1.2.2.1]

/-- C8: each of transactionId, transactionNumber, transactionRef is assigned
at the first save only when not already set (the number in the form
three-letter uppercased type ++ counter zero-padded to 8 digits), a set
identifier survives every save unchanged, the hook assigns nothing on a
persisted document, and the checkout controller's transactionRef
reassignment is ignored by the schema's immutability on a persisted
document. -/
theorem transaction_identifiers (t : Transaction) (fid fref : String) (ctr : ℕ) (now : ℤ) :
    (t.isNew = true → t.transactionId = none →
      (t.save fid fref ctr now).transactionId = some fid) ∧
    (t.isNew = true → t.transactionNumber = none →
      (t.save fid fref ctr now).transactionNumber =
        some (typeUpper3 t.transactionType ++ padStart8 (Nat.repr ctr))) ∧
    (t.isNew = true → t.transactionRef = none →
      (t.save fid fref ctr now).transactionRef = some fref) ∧
    (∀ x, t.transactionId = some x → (t.save fid fref ctr now).transactionId = some x) ∧
    (∀ x, t.transactionNumber = some x → (t.save fid fref ctr now).transactionNumber = some x) ∧
    (∀ x, t.transactionRef = some x → (t.save fid fref ctr now).transactionRef = some x) ∧
    (t.isNew = false →
      (t.save fid fref ctr now).transactionId = t.transactionId ∧
      (t.save fid fref ctr now).transactionNumber = t.transactionNumber ∧
      (t.save fid fref ctr now).transactionRef = t.transactionRef) ∧
    (∀ req totals paymentDone fcr, t.isNew = false →
      (updateTransactionForCheckout t req totals paymentDone fcr now).transactionRef =
        t.transactionRef) := by
  have hs := save_ids_step t fid fref ctr now
  have ha := assignIdentifiers_fields t fid fref ctr
  refine ⟨?_, ?_, ?_, ?_, ?_, ?_, ?_, ?_⟩
  · intro hnew hid
    rw [hs.1, if_pos hnew, ha.1, if_pos hid]
  · intro hnew hnum
    rw [hs.2.1, if_pos hnew, ha.2.1, if_pos hnum, formatTransactionNumber]
  · intro hnew href
    rw [hs.2.2, if_pos hnew, ha.2.2, if_pos href]
  · intro x hx
    rw [hs.1]
    split_ifs with hnew
    · rw [ha.1, hx, if_neg (by simp)]
    · exact hx
  · intro x hx
    rw [hs.2.1]
    split_ifs with hnew
    · rw [ha.2.1, hx, if_neg (by simp)]
    · exact hx
  · intro x hx
    rw [hs.2.2]
    split_ifs with hnew
    · rw [ha.2.2, hx, if_neg (by simp)]
    · exact hx
  · intro hold
    rw [hs.1, hs.2.1, hs.2.2, if_neg (by simp [hold])]
    exact ⟨rfl, rfl, rfl⟩
  · intro req totals paymentDone fcr hold
    simp [updateTransactionForCheckout, setImmutable, hold]

theorem checkStock_ok_iff (meds : List Medicine) (items : List TxItem) :
    checkStock meds items = .ok () ↔
      ∀ i ∈ items, ∃ m, findMedicine meds i.medicineId = some m ∧ i.quantity ≤ m.quantity := by
  induction items with
  | nil => simp [checkStock]
  | cons i r ih =>
    rw [checkStock]
    cases hf : findMedicine meds i.medicineId with
    | none =>
      simp only [List.mem_cons]
      constructor
      · intro h
        cases h
      · intro h
        obtain ⟨m, hm, _⟩ := h i (Or.inl rfl)
        rw [hf] at hm
        cases hm
    | some m =>
      dsimp only
      split_ifs with hq
      · simp only [List.mem_cons]
        constructor
        · intro h
          cases h
        · intro h
          obtain ⟨m', hm', hle⟩ := h i (Or.inl rfl)
          rw [hf] at hm'
          injection hm' with hmm
          subst hmm
          exact absurd hle (not_le.mpr hq)
      · rw [ih]
        constructor
        · intro h j hj
          rcases List.mem_cons.mp hj with hj | hj
          · subst hj
            exact ⟨m, hf, not_lt.mp hq⟩
          · exact h j hj
        · intro h j hj
          exact h j (List.mem_cons.mpr (Or.inr hj))

theorem txItemsTotal_eq_itemsSubtotal (items : List TxItem)
    (h : ∀ i ∈ items, i.totalPrice = i.quantity * i.unitPrice) :
    txItemsTotal items = itemsSubtotal items := by
  induction items with
  | nil => rfl
  | cons i r ih =>
    simp only [txItemsTotal, itemsSubtotal]
    rw [h i (by simp), ih (fun j hj => h j (by simp [hj]))]
    ring

theorem assignIdentifiers_financials (t : Transaction) (fid fref : String) (ctr : ℕ) :
    (assignIdentifiers t fid fref ctr).items = t.items ∧
    (assignIdentifiers t fid fref ctr).tax = t.tax ∧
    (assignIdentifiers t fid fref ctr).discount = t.discount ∧
    (assignIdentifiers t fid fref ctr).deliveryFee = t.deliveryFee := by
  unfold assignIdentifiers assignTransactionRef assignTransactionNumber assignTransactionId
  split_ifs <;> exact ⟨rfl, rfl, rfl, rfl⟩

theorem save_totalAmount (t : Transaction) (fid fref : String) (ctr : ℕ) (now : ℤ) :
    (t.save fid fref ctr now).totalAmount =
      max 0 (txItemsTotal t.items + t.tax - t.discount + t.deliveryFee) := by
  have hp := autoUpdateStatus_preserves
    ((if t.isNew then assignIdentifiers t fid fref ctr else t).calculateFinancials.calculateProfit)
    now
  simp only [Transaction.save, Transaction.preSave]
  rw [hp.2.2.2.2.1]
  split_ifs with hnew
  · have ha := assignIdentifiers_financials t fid fref ctr
    have hv : (assignIdentifiers t fid fref ctr).calculateFinancials.calculateProfit.totalAmount =
        max 0 (txItemsTotal (assignIdentifiers t fid fref ctr).items +
          (assignIdentifiers t fid fref ctr).tax - (assignIdentifiers t fid fref ctr).discount +
          (assignIdentifiers t fid fref ctr).deliveryFee) := rfl
    rw [hv, ha.1, ha.2.1, ha.2.2.1, ha.2.2.2]
  · rfl

theorem processCheckout_paid_run (w : World) (req : CheckoutRequest)
    (pay : ℚ → PaymentOutcome) (fcr fid fref : String) (ctr : ℕ) (now : ℤ)
    (txn : Transaction)
    (hdraft : req.saveAsDraft = false)
    (hpend : w.pendingTransaction = some txn)
    (hne : txn.items.isEmpty = false)
    (hstock : checkStock w.medicines txn.items = Except.ok ())
    (hpt : req.paymentType.isSome = true) :
    processCheckout w req pay fcr fid fref ctr now =
      (if (pay (calculateTotal txn.items req.deliveryOption defaultTaxRate).total).success then
        finishCheckout w req txn (calculateTotal txn.items req.deliveryOption defaultTaxRate)
          true fcr fid fref ctr now
          (some (calculateTotal txn.items req.deliveryOption defaultTaxRate).total)
      else
        ⟨.error (.paymentFailed
            (pay (calculateTotal txn.items req.deliveryOption defaultTaxRate).total).message),
          w, some (calculateTotal txn.items req.deliveryOption defaultTaxRate).total⟩) := by
  simp only [processCheckout, hpend]
  rw [if_neg (by simp [hne])]
  by_cases hsale : req.transactionType = TransactionType.sale
  · rw [if_pos ⟨hsale, hdraft⟩, hstock]
    rw [if_pos ⟨hdraft, hpt⟩]
  · rw [if_neg (by simp [hsale])]
    rw [if_pos ⟨hdraft, hpt⟩]

/-- C4: the stock-sufficiency loop of a non-draft sale checkout accepts
exactly when every item's medicine resolves with stock at or above the
requested quantity, reports ProductNotFound naming the item and
InsufficientStock naming the medicine and its available quantity, and a
checkout failing it returns that error with the world unchanged — no
transaction saved, no stock decremented, no cart cleared, no payment
dispatched. -/
theorem checkout_stock_validation :
    (∀ (meds : List Medicine) (items : List TxItem),
      checkStock meds items = .ok () ↔
        ∀ i ∈ items, ∃ m, findMedicine meds i.medicineId = some m ∧ i.quantity ≤ m.quantity) ∧
    (∀ (meds : List Medicine) (i : TxItem) (r : List TxItem),
      findMedicine meds i.medicineId = none →
        checkStock meds (i :: r) = .error (.productNotFound i.medicineName)) ∧
    (∀ (meds : List Medicine) (i : TxItem) (r : List TxItem) (m : Medicine),
      findMedicine meds i.medicineId = some m → m.quantity < i.quantity →
        checkStock meds (i :: r) = .error (.insufficientStock m.name m.quantity)) ∧
    (∀ (w : World) (req : CheckoutRequest) (pay : ℚ → PaymentOutcome)
        (fcr fid fref : String) (ctr : ℕ) (now : ℤ) (txn : Transaction) (e : CheckoutError),
      req.saveAsDraft = false → req.transactionType = TransactionType.sale →
      w.pendingTransaction = some txn → txn.items.isEmpty = false →
      checkStock w.medicines txn.items = .error e →
      processCheckout w req pay fcr fid fref ctr now = ⟨.error e, w, none⟩) := by
  refine ⟨checkStock_ok_iff, ?_, ?_, ?_⟩
  · intro meds i r hf
    rw [checkStock, hf]
  · intro meds i r m hf hq
    rw [checkStock, hf]
    dsimp only
    rw [if_pos hq]
  · intro w req pay fcr fid fref ctr now txn e hdraft hsale hpend hne hstock
    simp only [processCheckout, hpend]
    rw [if_neg (by simp [hne]), if_pos ⟨hsale, hdraft⟩, hstock]

/-- C4 witness: checking out 2 units of A against a stock of 1 fails with
InsufficientStock naming A and available quantity 1, and the world comes
back unchanged with no payment dispatched. -/
theorem checkout_stock_validation_witness :
    checkStock stockWorld.medicines stockTxn.items = .error (.insufficientStock "A" 1) ∧
    processCheckout stockWorld saleReq (fun _ => ⟨true, "approved"⟩) "R" "I" "F" 1 0 =
      ⟨.error (.insufficientStock "A" 1), stockWorld, none⟩ := by
  have hstock : checkStock stockWorld.medicines stockTxn.items =
      .error (.insufficientStock "A" 1) := rfl
  exact ⟨hstock,
    checkout_stock_validation.2.2.2 stockWorld saleReq (fun _ => ⟨true, "approved"⟩)
      "R" "I" "F" 1 0 stockTxn (.insufficientStock "A" 1) rfl rfl rfl rfl hstock⟩

/-- C5: in both checkout paths a reported payment failure aborts the whole
checkout with the dispatch's message before anything is persisted: the world
is returned unchanged — no transaction saved or finalized, no stock
decremented, no cart cleared. -/
theorem payment_failure_aborts :
    (∀ (w : World) (req : CheckoutRequest) (pay : ℚ → PaymentOutcome)
        (fcr fid fref : String) (ctr : ℕ) (now : ℤ) (txn : Transaction) (msg : String),
      req.saveAsDraft = false → req.paymentType.isSome = true →
      w.pendingTransaction = some txn → txn.items.isEmpty = false →
      checkStock w.medicines txn.items = Except.ok () →
      pay (calculateTotal txn.items req.deliveryOption defaultTaxRate).total = ⟨false, msg⟩ →
      processCheckout w req pay fcr fid fref ctr now =
        ⟨.error (.paymentFailed msg), w,
          some (calculateTotal txn.items req.deliveryOption defaultTaxRate).total⟩) ∧
    (∀ (w : World) (req : CheckoutRequest) (qitems : List QuickItem)
        (pay : ℚ → PaymentOutcome) (fn fqr fid fref : String) (ctr : ℕ) (now : ℤ)
        (titems : List TxItem) (msg : String),
      req.paymentType.isSome = true →
      qitems.isEmpty = false →
      buildQuickItems w.medicines req.transactionType qitems = .ok titems →
      pay (max 0 ((calculateTotal titems req.deliveryOption defaultTaxRate).subtotal +
          (calculateTotal titems req.deliveryOption defaultTaxRate).tax - req.discount +
          (calculateTotal titems req.deliveryOption defaultTaxRate).deliveryFee)) =
        ⟨false, msg⟩ →
      quickCheckout w req qitems pay fn fqr fid fref ctr now =
        ⟨.error (.paymentFailed msg), w,
          some (max 0 ((calculateTotal titems req.deliveryOption defaultTaxRate).subtotal +
            (calculateTotal titems req.deliveryOption defaultTaxRate).tax - req.discount +
            (calculateTotal titems req.deliveryOption defaultTaxRate).deliveryFee))⟩) := by
  constructor
  · intro w req pay fcr fid fref ctr now txn msg hdraft hpt hpend hne hstock hpay
    rw [processCheckout_paid_run w req pay fcr fid fref ctr now txn hdraft hpend hne hstock hpt,
      hpay]
    simp
  · intro w req qitems pay fn fqr fid fref ctr now titems msg hpt hne hbuild hpay
    simp only [quickCheckout]
    rw [if_neg (by simp [hne]), hbuild]
    dsimp only
    rw [if_pos hpt, hpay]
    simp

/-- C5 witness: with sufficient stock and a declining gateway, both checkout
paths return the decline message and leave the world untouched. -/
theorem payment_failure_aborts_witness :
    processCheckout payWorld saleReq failPay "R" "I" "F" 1 0 =
      ⟨.error (.paymentFailed "Payment declined by bank"), payWorld,
        some (calculateTotal stockTxn.items saleReq.deliveryOption defaultTaxRate).total⟩ ∧
    quickCheckout payWorld saleReq [⟨1, 2, none⟩] failPay "N" "Q" "I" "F" 1 0 =
      ⟨.error (.paymentFailed "Payment declined by bank"), payWorld,
        some (max 0
          ((calculateTotal quickItemsResult saleReq.deliveryOption defaultTaxRate).subtotal +
            (calculateTotal quickItemsResult saleReq.deliveryOption defaultTaxRate).tax -
              saleReq.discount +
            (calculateTotal quickItemsResult saleReq.deliveryOption defaultTaxRate).deliveryFee))⟩ := by
  have hbuild : buildQuickItems payWorld.medicines saleReq.transactionType
      [⟨1, 2, none⟩] = .ok quickItemsResult := by
    norm_num [buildQuickItems, findMedicine, List.find?, payWorld, saleReq, quickItemsResult]
  constructor
  · exact payment_failure_aborts.1 payWorld saleReq failPay "R" "I" "F" 1 0 stockTxn
      "Payment declined by bank" rfl rfl rfl rfl rfl rfl
  · exact payment_failure_aborts.2 payWorld saleReq [⟨1, 2, none⟩] failPay "N" "Q" "I" "F" 1 0
      quickItemsResult "Payment declined by bank" rfl rfl hbuild rfl

/-- C6 (amended): the checkout totals satisfy deliveryFee = 5.00 exactly for
the delivery option and tax = subtotal * taxRate with the default rate 0.08,
and a processCheckout whose save completes persists
totalAmount = subtotal + tax + deliveryFee − discount floored at 0; but the
amount processCheckout hands to the payment dispatch is the undiscounted,
unfloored subtotal + tax + deliveryFee — only quickCheckout dispatches the
discounted, floored total — and a non-delivery processCheckout never
persists at all: its out-of-enum deliveryStatus not_applicable fails
mongoose validation at save, leaving the world unchanged. -/
theorem checkout_totals :
    (∀ (items : List TxItem) (opt : DeliveryOption) (rate : ℚ),
      (calculateTotal items opt rate).subtotal = itemsSubtotal items ∧
      (calculateTotal items opt rate).deliveryFee =
        (if opt = DeliveryOption.delivery then 5 else 0) ∧
      (calculateTotal items opt rate).tax = itemsSubtotal items * rate ∧
      (calculateTotal items opt rate).total =
        itemsSubtotal items + itemsSubtotal items * rate +
          (if opt = DeliveryOption.delivery then 5 else 0)) ∧
    defaultTaxRate = 8 / 100 ∧
    (∀ (w : World) (req : CheckoutRequest) (pay : ℚ → PaymentOutcome)
        (fcr fid fref : String) (ctr : ℕ) (now : ℤ) (txn : Transaction),
      req.saveAsDraft = false → req.paymentType.isSome = true →
      w.pendingTransaction = some txn → txn.items.isEmpty = false →
      checkStock w.medicines txn.items = Except.ok () →
      (processCheckout w req pay fcr fid fref ctr now).dispatched =
        some (calculateTotal txn.items req.deliveryOption defaultTaxRate).total ∧
      (∀ t', (processCheckout w req pay fcr fid fref ctr now).result = .ok t' →
        (∀ i ∈ txn.items, i.totalPrice = i.quantity * i.unitPrice) →
        t'.totalAmount =
          max 0 ((calculateTotal txn.items req.deliveryOption defaultTaxRate).subtotal +
            (calculateTotal txn.items req.deliveryOption defaultTaxRate).tax - req.discount +
            (calculateTotal txn.items req.deliveryOption defaultTaxRate).deliveryFee))) ∧
    (∀ (w : World) (req : CheckoutRequest) (qitems : List QuickItem)
        (pay : ℚ → PaymentOutcome) (fn fqr fid fref : String) (ctr : ℕ) (now : ℤ)
        (titems : List TxItem),
      req.paymentType.isSome = true →
      qitems.isEmpty = false →
      buildQuickItems w.medicines req.transactionType qitems = .ok titems →
      (quickCheckout w req qitems pay fn fqr fid fref ctr now).dispatched =
        some (max 0
          ((calculateTotal titems req.deliveryOption defaultTaxRate).subtotal +
            (calculateTotal titems req.deliveryOption defaultTaxRate).tax - req.discount +
            (calculateTotal titems req.deliveryOption defaultTaxRate).deliveryFee))) ∧
    (∀ (w : World) (req : CheckoutRequest) (pay : ℚ → PaymentOutcome)
        (fcr fid fref : String) (ctr : ℕ) (now : ℤ) (txn : Transaction),
      req.saveAsDraft = false → req.paymentType.isSome = true →
      w.pendingTransaction = some txn → txn.items.isEmpty = false →
      checkStock w.medicines txn.items = Except.ok () →
      req.deliveryOption ≠ DeliveryOption.delivery →
      (processCheckout w req pay fcr fid fref ctr now).world = w ∧
      ∀ t', (processCheckout w req pay fcr fid fref ctr now).result ≠ .ok t') := by
  refine ⟨fun items opt rate => ⟨rfl, rfl, rfl, rfl⟩, rfl, ?_, ?_, ?_⟩
  · intro w req pay fcr fid fref ctr now txn hdraft hpt hpend hne hstock
    rw [processCheckout_paid_run w req pay fcr fid fref ctr now txn hdraft hpend hne hstock hpt]
    constructor
    · split
      · simp only [finishCheckout]
        split
        · rfl
        · rfl
      · rfl
    · intro t' hres hwf
      split at hres
      · simp only [finishCheckout] at hres
        split at hres
        · simp only [Except.ok.injEq] at hres
          subst hres
          rw [save_totalAmount]
          rw [show (updateTransactionForCheckout txn req
              (calculateTotal txn.items req.deliveryOption defaultTaxRate) true fcr now).items =
            txn.items from rfl]
          rw [txItemsTotal_eq_itemsSubtotal txn.items hwf]
          rfl
        · simp at hres
      · simp at hres
  · intro w req qitems pay fn fqr fid fref ctr now titems hpt hne hbuild
    simp only [quickCheckout]
    rw [if_neg (by simp [hne]), hbuild]
    dsimp only
    rw [if_pos hpt]
    split_ifs <;> rfl
  · intro w req pay fcr fid fref ctr now txn hdraft hpt hpend hne hstock hopt
    rw [processCheckout_paid_run w req pay fcr fid fref ctr now txn hdraft hpend hne hstock hpt]
    have hv : validateTransaction (updateTransactionForCheckout txn req
        (calculateTotal txn.items req.deliveryOption defaultTaxRate) true fcr now) = false := by
      simp [validateTransaction, updateTransactionForCheckout, hopt]
    constructor
    · split
      · simp only [finishCheckout]
        rw [if_neg (by simp [hv])]
      · rfl
    · intro t'
      split
      · simp only [finishCheckout]
        rw [if_neg (by simp [hv])]
        simp
      · simp

/-- C6 counterexample: a delivery checkout with subtotal 20, tax 1.60,
delivery fee 5 and discount 2 passes mongoose validation (deliveryStatus
pending), saves, and persists totalAmount 24.60, yet hands 26.60 to the
payment dispatch — the amount charged is not the discounted, floored total
that is persisted. -/
theorem checkout_dispatch_cex :
    (processCheckout payWorld deliveryReq okPay "R" "I" "F" 1 0).dispatched =
      some (133 / 5) ∧
    ((processCheckout payWorld deliveryReq okPay "R" "I" "F" 1 0).world.pendingTransaction.map
      Transaction.totalAmount) = some (123 / 5) ∧
    (133 / 5 : ℚ) ≠ 123 / 5 := by
  have hrun := processCheckout_paid_run payWorld deliveryReq okPay "R" "I" "F" 1 0 stockTxn
    rfl rfl rfl rfl rfl
  have hT : (calculateTotal stockTxn.items deliveryReq.deliveryOption defaultTaxRate).total =
      133 / 5 := by
    norm_num [calculateTotal, itemsSubtotal, defaultTaxRate, stockTxn, deliveryReq]
  have hsucc : (okPay
      (calculateTotal stockTxn.items deliveryReq.deliveryOption defaultTaxRate).total).success =
      true := rfl
  have hval : validateTransaction (updateTransactionForCheckout stockTxn deliveryReq
      (calculateTotal stockTxn.items deliveryReq.deliveryOption defaultTaxRate) true "R" 0) =
      true := by
    norm_num [validateTransaction, updateTransactionForCheckout, stockTxn, deliveryReq,
      show ¬ DStatus.pending = DStatus.notApplicable by decide]
  refine ⟨?_, ?_, by norm_num⟩
  · rw [hrun, if_pos hsucc]
    simp only [finishCheckout]
    rw [if_pos hval, hT]
  · rw [hrun, if_pos hsucc]
    simp only [finishCheckout]
    rw [if_pos hval]
    simp only [Option.map_some']
    rw [save_totalAmount]
    norm_num [updateTransactionForCheckout, calculateTotal, itemsSubtotal, defaultTaxRate,
      stockTxn, deliveryReq, txItemsTotal]

/-- C6 witness: at concrete checkouts the amended statements hold:
processCheckout dispatches the undiscounted 21.60 where the discounted,
floored total is 19.60, quickCheckout dispatches the discounted, floored
19.60, and a pickup processCheckout fails validation, leaving the world
unchanged. -/
theorem checkout_totals_witness :
    (processCheckout payWorld saleReq okPay "R" "I" "F" 1 0).dispatched =
      some (calculateTotal stockTxn.items saleReq.deliveryOption defaultTaxRate).total ∧
    (calculateTotal stockTxn.items saleReq.deliveryOption defaultTaxRate).total = 108 / 5 ∧
    (quickCheckout payWorld saleReq [⟨1, 2, none⟩] okPay "N" "Q" "I" "F" 1 0).dispatched =
      some (max 0
        ((calculateTotal quickItemsResult saleReq.deliveryOption defaultTaxRate).subtotal +
          (calculateTotal quickItemsResult saleReq.deliveryOption defaultTaxRate).tax -
            saleReq.discount +
          (calculateTotal quickItemsResult saleReq.deliveryOption defaultTaxRate).deliveryFee)) ∧
    max 0 ((calculateTotal quickItemsResult saleReq.deliveryOption defaultTaxRate).subtotal +
        (calculateTotal quickItemsResult saleReq.deliveryOption defaultTaxRate).tax -
          saleReq.discount +
        (calculateTotal quickItemsResult saleReq.deliveryOption defaultTaxRate).deliveryFee) =
      98 / 5 ∧
    (processCheckout payWorld saleReq okPay "R" "I" "F" 1 0).world = payWorld := by
  have hbuild : buildQuickItems payWorld.medicines saleReq.transactionType
      [⟨1, 2, none⟩] = .ok quickItemsResult := by
    norm_num [buildQuickItems, findMedicine, List.find?, payWorld, saleReq, quickItemsResult]
  refine ⟨(checkout_totals.2.2.1 payWorld saleReq okPay "R" "I" "F" 1 0 stockTxn
      rfl rfl rfl rfl rfl).1, ?_,
    checkout_totals.2.2.2.1 payWorld saleReq [⟨1, 2, none⟩] okPay "N" "Q" "I" "F" 1 0
      quickItemsResult rfl rfl hbuild, ?_,
    (checkout_totals.2.2.2.2 payWorld saleReq okPay "R" "I" "F" 1 0 stockTxn
      rfl rfl rfl rfl rfl (by decide)).1⟩
  · norm_num [calculateTotal, itemsSubtotal, defaultTaxRate, stockTxn, saleReq,
      show ¬ DeliveryOption.pickup = DeliveryOption.delivery by decide]
  · norm_num [calculateTotal, itemsSubtotal, defaultTaxRate, quickItemsResult, saleReq,
      show ¬ DeliveryOption.pickup = DeliveryOption.delivery by decide]

/-- C8 witness: the first save of a fresh sale transaction with sequence 42
assigns transactionNumber SAL00000042 and the two generated references, and
a persisted transaction whose reference is set keeps it through the checkout
controller's reassignment. -/
theorem transaction_identifiers_witness :
    (freshTxn.save "TXN-A" "REF-B" 42 0).transactionNumber = some "SAL00000042" ∧
    (freshTxn.save "TXN-A" "REF-B" 42 0).transactionId = some "TXN-A" ∧
    (freshTxn.save "TXN-A" "REF-B" 42 0).transactionRef = some "REF-B" ∧
    (updateTransactionForCheckout refundedTxn ⟨TransactionType.sale, 0,
        DeliveryOption.pickup, false, some "cash"⟩ ⟨0, 0, 0, 0⟩ false "REF-NEW" 0).transactionRef =
      some "REF-2" := by
  have h := transaction_identifiers freshTxn "TXN-A" "REF-B" 42 0
  have h2 := transaction_identifiers refundedTxn "X" "Y" 1 0
  refine ⟨?_, h.1 rfl rfl, h.2.2.1 rfl rfl, ?_⟩
  · rw [h.2.1 rfl rfl]
    decide
  · rw [h2.2.2.2.2.2.2.2 ⟨TransactionType.sale, 0, DeliveryOption.pickup, false, some "cash"⟩
      ⟨0, 0, 0, 0⟩ false "REF-NEW" rfl]
    rfl

end Recyleto

